import Mathlib

/-!
Shallow embedding of the goexec subprocess-execution library.

The embedding models the two source files:
* the core `ExecTask.Execute` runner (command building, environment merge,
  output fan-out via a multi-destination writer, context preflight check,
  start/wait outcome handling, result construction);
* the script-execution helper `ExecuteShellScript` and its options.

OS-level behaviour (the ambient environment snapshot, whether `sh` resolves
on the search path, the context's error state at the two points where the
code inspects it, whether process creation succeeds, what the child writes
on each stream, and how the wait call classifies termination) is supplied
by an explicit `World` record, so `Execute` becomes a pure function of the
task and the world.
-/

namespace strings

/-- Embedding of Go `strings.Split(s, sep)` for a one-character separator,
at the character-list level: splits at every occurrence of `sep`, keeping
empty fields, and returns at least one field. -/
def SplitChars (sep : Char) : List Char → List (List Char)
  | [] => [[]]
  | c :: cs =>
    if c = sep then [] :: SplitChars sep cs
    else
      match SplitChars sep cs with
      | [] => [[c]]
      | r :: rs => (c :: r) :: rs

/-- Embedding of Go `strings.Join(parts, sep)` for a one-character separator,
at the character-list level. -/
def JoinChars (sep : Char) : List (List Char) → List Char
  | [] => []
  | [a] => a
  | a :: b :: bs => a ++ sep :: JoinChars sep (b :: bs)

/-- Go `strings.Split` on `String`. -/
def Split (s : String) (sep : Char) : List String :=
  (SplitChars sep s.data).map String.mk

/-- Go `strings.Join` on `String` (separator a single character). -/
def Join (l : List String) (sep : Char) : String :=
  String.mk (JoinChars sep (l.map String.data))

theorem SplitChars_ne_nil (sep : Char) (l : List Char) : SplitChars sep l ≠ [] := by
  induction l with
  | nil => simp [SplitChars]
  | cons c cs ih =>
    simp only [SplitChars]
    split
    · simp
    · cases h : SplitChars sep cs with
      | nil => simp
      | cons r rs => simp

theorem JoinChars_SplitChars (sep : Char) (l : List Char) :
    JoinChars sep (SplitChars sep l) = l := by
  induction l with
  | nil => rfl
  | cons c cs ih =>
    simp only [SplitChars]
    by_cases hc : c = sep
    · subst hc
      simp only [if_pos rfl]
      cases h : SplitChars c cs with
      | nil => exact absurd h (SplitChars_ne_nil c cs)
      | cons r rs =>
        rw [h] at ih
        simp [JoinChars, ih]
    · simp only [if_neg hc]
      cases h : SplitChars sep cs with
      | nil => exact absurd h (SplitChars_ne_nil sep cs)
      | cons r rs =>
        rw [h] at ih
        cases rs with
        | nil =>
          simp only [JoinChars] at ih ⊢
          rw [ih]
        | cons s ss =>
          simp only [JoinChars, List.cons_append] at ih ⊢
          rw [ih]

theorem Join_Split (s : String) (sep : Char) : Join (Split s sep) sep = s := by
  unfold Join Split
  rw [List.map_map]
  have hdata : (String.data ∘ String.mk) = id := rfl
  rw [hdata, List.map_id, JoinChars_SplitChars]

end strings

/-- Context error state, the value of `ctx.Err()` at a point where the code
inspects it (`nil`, `context.Canceled`, or `context.DeadlineExceeded`). -/
inductive CtxErr where
  | none
  | canceled
  | deadlineExceeded
deriving DecidableEq, Repr

/-- How `cmd.Wait()` classified the child's termination: a normal exit with
an exit status (Go wraps a non-zero status in an `exec.ExitError` whose
`ExitCode()` is the status, and returns `nil` for status 0), or a
signal-kill (an `exec.ExitError` whose `ExitCode()` is `-1`). -/
inductive WaitOutcome where
  | exited (code : Int)
  | signalled
deriving DecidableEq, Repr

/-- The error value `Execute` can return alongside the result: the context
error (preflight or post-wait) or the process-creation error. -/
inductive ExecErr where
  | canceled
  | deadlineExceeded
  | startError
deriving DecidableEq, Repr

/-- One fan-out destination for a stream, in the order `Execute` appends
them to the writer list: raw file handle, internal buffer, the process's
own stdio, the caller-supplied sink. -/
inductive Dest where
  | outputFile
  | buffer
  | stdio
  | sink
deriving DecidableEq, Repr

/-- Embedding of `ExecTask` (part_000, lines 14-66). File handles, the
stdin reader and the sink writers are modelled by their presence. The
timeout is an integer duration (only its sign matters to the code). -/
structure ExecTask where
  Command : String
  Args : List String
  Shell : Bool
  Env : List String
  Cwd : String
  Stdin : Bool
  PrintCommand : Bool
  StreamStdio : Bool
  DisableStdioBuffer : Bool
  StdOutWriter : Bool
  StdErrWriter : Bool
  Timeout : Int
  OutputFile : Bool
  ErrorFile : Bool
deriving DecidableEq, Repr

/-- The Go zero value of `ExecTask`. -/
def defaultTask : ExecTask :=
  { Command := "", Args := [], Shell := false, Env := [], Cwd := "",
    Stdin := false, PrintCommand := false, StreamStdio := false,
    DisableStdioBuffer := false, StdOutWriter := false, StdErrWriter := false,
    Timeout := 0, OutputFile := false, ErrorFile := false }

/-- Embedding of `ExecResult` (part_000, lines 68-75). -/
structure ExecResult where
  Stdout : String
  Stderr : String
  ExitCode : Int
  Timedout : Bool
  Cancelled : Bool
  Duration : Nat
deriving DecidableEq, Repr

/-- The Go zero value `ExecResult{}` returned on a start error. -/
def zeroResult : ExecResult :=
  { Stdout := "", Stderr := "", ExitCode := 0, Timedout := false,
    Cancelled := false, Duration := 0 }

/-- The ambient state `Execute` interacts with: the process environment
snapshot, search-path resolution of `sh`, the context error at the
preflight check and after the wait, whether `cmd.Start()` fails, what the
child writes to each stream (as a chunk sequence), how the wait call
classifies termination, and the measured duration. -/
structure World where
  ambientEnv : List String
  shInPath : Bool
  preCtxErr : CtxErr
  startFails : Bool
  stdoutChunks : List String
  stderrChunks : List String
  waitOutcome : WaitOutcome
  finalCtxErr : CtxErr
  duration : Nat
deriving Repr

/-- What each of the four possible destinations of one stream received,
chunk by chunk. -/
structure Delivery where
  toFile : List String
  toBuffer : List String
  toStdio : List String
  toSink : List String
deriving DecidableEq, Repr

def emptyDelivery : Delivery :=
  { toFile := [], toBuffer := [], toStdio := [], toSink := [] }

def Delivery.toDest (d : Delivery) : Dest → List String
  | Dest.outputFile => d.toFile
  | Dest.buffer => d.toBuffer
  | Dest.stdio => d.toStdio
  | Dest.sink => d.toSink

/-- One `Write` call of Go's `io.MultiWriter`: destinations are written in
list order; the first destination whose write fails stops the call, so it
and every destination after it do not receive the chunk. Returns the
destinations that received the chunk and whether an error occurred. -/
def writeChunk (fails : Dest → Bool) : List Dest → List Dest × Bool
  | [] => ([], false)
  | d :: ds =>
    if fails d then ([], true)
    else
      let r := writeChunk fails ds
      (d :: r.1, r.2)

/-- The copy loop feeding a stream's `io.MultiWriter`: each chunk the child
writes is handed to `writeChunk`; a write error stops the copy, so later
chunks reach no destination. Produces the per-chunk delivery log. -/
def copyStream (fails : Dest → Nat → Bool) (dests : List Dest) :
    Nat → List String → List (List Dest × String)
  | _, [] => []
  | i, c :: cs =>
    let r := writeChunk (fun d => fails d i) dests
    (r.1, c) :: (if r.2 then [] else copyStream fails dests (i + 1) cs)

/-- The chunks a given destination received, in order. -/
def receivedBy (d : Dest) (log : List (List Dest × String)) : List String :=
  log.filterMap (fun p => if p.1.contains d then some p.2 else none)

def mkDelivery (log : List (List Dest × String)) : Delivery :=
  { toFile := receivedBy Dest.outputFile log,
    toBuffer := receivedBy Dest.buffer log,
    toStdio := receivedBy Dest.stdio log,
    toSink := receivedBy Dest.sink log }

/-- The stdout destination list `Execute` assembles (part_000, lines
168-196): output file, then the internal buffer unless buffering is
disabled, then the process stdout when streaming, then the caller sink. -/
def stdoutDests (et : ExecTask) : List Dest :=
  (if et.OutputFile then [Dest.outputFile] else [])
    ++ (if !et.DisableStdioBuffer then [Dest.buffer] else [])
    ++ (if et.StreamStdio then [Dest.stdio] else [])
    ++ (if et.StdOutWriter then [Dest.sink] else [])

/-- The stderr destination list, assembled the same way. -/
def stderrDests (et : ExecTask) : List Dest :=
  (if et.ErrorFile then [Dest.outputFile] else [])
    ++ (if !et.DisableStdioBuffer then [Dest.buffer] else [])
    ++ (if et.StreamStdio then [Dest.stdio] else [])
    ++ (if et.StdErrWriter then [Dest.sink] else [])

/-- The key of a `KEY=VALUE` entry, as the code computes it:
`strings.Split(env, "=")[0]` (part_000, lines 148 and 154). -/
def envKey (s : String) : String :=
  (strings.Split s '=').headD ""

/-- Convert a context error state to the error value `Execute` returns. -/
def ctxErrOpt : CtxErr → Option ExecErr
  | CtxErr.none => Option.none
  | CtxErr.canceled => some ExecErr.canceled
  | CtxErr.deadlineExceeded => some ExecErr.deadlineExceeded

/-- Everything one `Execute` call produces: the result and error pair it
returns, plus observations of its interaction with the OS — whether
`cmd.Start()` was reached, the argv handed to `exec.CommandContext`, the
explicit child environment (`none` when the code leaves `cmd.Env` unset so
the child inherits the ambient environment), and what each fan-out
destination of each stream received. -/
structure ExecOutcome where
  result : ExecResult
  error : Option ExecErr
  reachedStart : Bool
  argv : Option (String × List String)
  childEnv : Option (List String)
  stdoutDelivery : Delivery
  stderrDelivery : Delivery
deriving Repr

/-- The shell interpreter `Execute` resolves in shell mode (part_000, lines
110-115): `sh` when `exec.LookPath` finds it, else the fallback
`/usr/bin/sh`. -/
def shellInterp (w : World) : String :=
  if w.shInPath then "sh" else "/usr/bin/sh"

/-- The argv `Execute` builds (part_000, lines 102-142): in shell mode the
interpreter gets `-c` and a script (the args joined with single spaces and
prefixed with the command when args are present, else the command
whitespace-split and rejoined); in direct mode the command and args are
used verbatim. -/
def buildArgv (et : ExecTask) (w : World) : String × List String :=
  if et.Shell then
    if et.Args.isEmpty then
      (shellInterp w, ["-c", strings.Join (strings.Split et.Command ' ') ' '])
    else
      (shellInterp w, ["-c", et.Command ++ " " ++ strings.Join et.Args ' '])
  else
    (et.Command, et.Args)

/-- The explicit child environment `Execute` sets (part_000, lines
145-160): when overrides are present, the override list followed by every
ambient variable whose key is not an override key; when the override list
is empty, `cmd.Env` is left unset (`none`) and the child inherits the
ambient environment. -/
def buildEnv (et : ExecTask) (w : World) : Option (List String) :=
  if et.Env.isEmpty then
    none
  else
    some (et.Env ++ w.ambientEnv.filter
      (fun env => !((et.Env.map envKey).contains (envKey env))))

/-- The exit code `Execute` extracts (part_000, lines 204-211): `0` unless
`cmd.Wait()` returned an `exec.ExitError`, in which case its `ExitCode()`
— the exit status for a normal exit, `-1` for a signal-kill. -/
def extractExitCode : WaitOutcome → Int
  | WaitOutcome.exited code => code
  | WaitOutcome.signalled => -1

/-- Embedding of `ExecTask.Execute` (part_000, lines 77-221) as a pure
function of the task, the world, and per-destination write-failure oracles
for the two streams (`sf d i` / `ef d i`: destination `d` fails on chunk
`i`). Mirrors the source order: preflight context check, command build,
environment build, start, wait, result construction. -/
def Execute (et : ExecTask) (w : World) (sf ef : Dest → Nat → Bool) : ExecOutcome :=
  if w.preCtxErr ≠ CtxErr.none then
    { result := { Stdout := "", Stderr := "", ExitCode := -1,
                  Timedout := false,
                  Cancelled := w.preCtxErr = CtxErr.canceled,
                  Duration := 0 },
      error := ctxErrOpt w.preCtxErr,
      reachedStart := false,
      argv := none,
      childEnv := none,
      stdoutDelivery := emptyDelivery,
      stderrDelivery := emptyDelivery }
  else
    let argv := buildArgv et w
    let childEnv := buildEnv et w
    if w.startFails then
      { result := zeroResult,
        error := some ExecErr.startError,
        reachedStart := true,
        argv := some argv,
        childEnv := childEnv,
        stdoutDelivery := emptyDelivery,
        stderrDelivery := emptyDelivery }
    else
      let stdoutLog := copyStream sf (stdoutDests et) 0 w.stdoutChunks
      let stderrLog := copyStream ef (stderrDests et) 0 w.stderrChunks
      { result := { Stdout := String.join (receivedBy Dest.buffer stdoutLog),
                    Stderr := String.join (receivedBy Dest.buffer stderrLog),
                    ExitCode := extractExitCode w.waitOutcome,
                    Timedout := w.finalCtxErr = CtxErr.deadlineExceeded,
                    Cancelled := w.finalCtxErr = CtxErr.canceled,
                    Duration := w.duration },
        error := ctxErrOpt w.finalCtxErr,
        reachedStart := true,
        argv := some argv,
        childEnv := childEnv,
        stdoutDelivery := mkDelivery stdoutLog,
        stderrDelivery := mkDelivery stderrLog }

/-- Embedding of `ShellScriptOption` (goexec_scripts.go, line 9): a task
mutator, modelled functionally. -/
def ShellScriptOption : Type := ExecTask → ExecTask

/-- `WithEnv` (goexec_scripts.go, lines 11-15). -/
def WithEnv (env : List String) : ShellScriptOption :=
  fun et => { et with Env := env }

/-- `WithShell` (goexec_scripts.go, lines 17-24): a non-empty interpreter
string replaces the command and forces shell mode; the empty string is
ignored. -/
def WithShell (shell : String) : ShellScriptOption :=
  fun et =>
    if shell ≠ "" then { et with Command := shell, Shell := true } else et

/-- `WithCwd` (goexec_scripts.go, lines 26-30). -/
def WithCwd (cwd : String) : ShellScriptOption :=
  fun et => { et with Cwd := cwd }

/-- `WithArgs` (goexec_scripts.go, lines 32-36): appends to the existing
args. -/
def WithArgs (args : List String) : ShellScriptOption :=
  fun et => { et with Args := et.Args ++ args }

/-- `WithOutputFiles` (goexec_scripts.go, lines 38-43); file handles are
modelled by presence. -/
def WithOutputFiles (stdout stderr : Bool) : ShellScriptOption :=
  fun et => { et with OutputFile := stdout, ErrorFile := stderr }

/-- The error of the script helper: the pre-flight "script not found"
error, or whatever error the delegated core call returned. -/
inductive ScriptErr where
  | scriptNotFound (path : String)
  | coreErr (e : ExecErr)
deriving DecidableEq, Repr

/-- The default task `ExecuteShellScript` builds before applying options
(goexec_scripts.go, lines 52-56). -/
def defaultScriptTask (scriptPath : String) : ExecTask :=
  { defaultTask with Command := "sh", Args := [scriptPath], Shell := true }

/-- What one `ExecuteShellScript` call produces: the returned result and
error, whether the core `Execute` was invoked, and the task it delegated. -/
structure ScriptOutcome where
  result : ExecResult
  error : Option ScriptErr
  coreInvoked : Bool
  delegatedTask : Option ExecTask
deriving Repr

/-- Embedding of `ExecuteShellScript` (goexec_scripts.go, lines 45-65).
`scriptExists` is the oracle for the `os.Stat` / `os.IsNotExist` check:
when false, the helper returns the "script not found" error without
invoking the core; otherwise it builds the default task, applies the
options in order, and delegates to `Execute`. -/
def ExecuteShellScript (scriptExists : Bool) (scriptPath : String)
    (opts : List ShellScriptOption) (w : World) (sf ef : Dest → Nat → Bool) :
    ScriptOutcome :=
  if !scriptExists then
    { result := zeroResult,
      error := some (ScriptErr.scriptNotFound scriptPath),
      coreInvoked := false,
      delegatedTask := none }
  else
    let execTask := opts.foldl (fun et opt => opt et) (defaultScriptTask scriptPath)
    let o := Execute execTask w sf ef
    { result := o.result,
      error := o.error.map ScriptErr.coreErr,
      coreInvoked := true,
      delegatedTask := some execTask }

/-- A failure oracle under which every destination write succeeds. -/
def noFail : Dest → Nat → Bool := fun _ _ => false

theorem writeChunk_noFail (fails : Dest → Bool) (dests : List Dest)
    (h : ∀ d, fails d = false) : writeChunk fails dests = (dests, false) := by
  induction dests with
  | nil => rfl
  | cons d ds ih => simp [writeChunk, h d, ih]

theorem writeChunk_mem (fails : Dest → Bool) (dests : List Dest) (d : Dest)
    (h : d ∈ (writeChunk fails dests).1) : d ∈ dests := by
  induction dests with
  | nil => simp [writeChunk] at h
  | cons x xs ih =>
    simp only [writeChunk] at h
    by_cases hx : fails x
    · simp [hx] at h
    · simp only [hx, if_neg, Bool.false_eq_true, if_false] at h
      rcases List.mem_cons.mp h with h1 | h2
      · exact h1 ▸ List.mem_cons_self x xs
      · exact List.mem_cons_of_mem x (ih h2)

theorem receivedBy_noFail (fails : Dest → Nat → Bool) (dests : List Dest) (d : Dest)
    (h : ∀ x i, fails x i = false) (hd : d ∈ dests) (cs : List String) (i : Nat) :
    receivedBy d (copyStream fails dests i cs) = cs := by
  induction cs generalizing i with
  | nil => rfl
  | cons c cs ih =>
    have hw : writeChunk (fun x => fails x i) dests = (dests, false) :=
      writeChunk_noFail _ _ (fun x => h x i)
    simp only [copyStream, hw, Bool.false_eq_true, if_false, receivedBy,
      List.filterMap_cons]
    have hc : dests.contains d = true := by simpa using hd
    simp only [hc, if_pos]
    rw [← receivedBy, ih]

theorem receivedBy_not_mem (fails : Dest → Nat → Bool) (dests : List Dest) (d : Dest)
    (hd : d ∉ dests) (cs : List String) (i : Nat) :
    receivedBy d (copyStream fails dests i cs) = [] := by
  induction cs generalizing i with
  | nil => rfl
  | cons c cs ih =>
    simp only [copyStream, receivedBy, List.filterMap_cons]
    have hc : (writeChunk (fun x => fails x i) dests).1.contains d = false := by
      by_contra hh
      rw [Bool.not_eq_false] at hh
      exact hd (writeChunk_mem _ _ _ (by simpa using hh))
    simp only [hc, Bool.false_eq_true, if_false]
    split
    · rfl
    · rw [← receivedBy, ih]

theorem mkDelivery_toDest (log : List (List Dest × String)) (d : Dest) :
    (mkDelivery log).toDest d = receivedBy d log := by
  cases d <;> rfl

/-- A benign world used to instantiate theorems with hypotheses: context
never expires, `sh` resolves, the start succeeds, the child writes a little
to each stream and exits cleanly. -/
def worldOK : World :=
  { ambientEnv := ["PATH=/bin", "HOME=/root"], shInPath := true,
    preCtxErr := CtxErr.none, startFails := false,
    stdoutChunks := ["hello", " world"], stderrChunks := ["oops"],
    waitOutcome := WaitOutcome.exited 0, finalCtxErr := CtxErr.none,
    duration := 5 }

/-- Claim C3: for every task with `Shell = false` (and a context that is
not already expired, so that process creation is reached), the argv handed
to process creation is exactly the command followed by the args, both
verbatim — no whitespace splitting. -/
theorem direct_mode_argv_verbatim (et : ExecTask) (w : World)
    (sf ef : Dest → Nat → Bool)
    (hsh : et.Shell = false) (hpre : w.preCtxErr = CtxErr.none) :
    (Execute et w sf ef).argv = some (et.Command, et.Args) := by
  unfold Execute
  simp only [hpre, ne_eq, not_true_eq_false, if_false, reduceIte]
  split <;> simp [buildArgv, hsh]

def taskC3 : ExecTask :=
  { defaultTask with Command := "/opt/my tools/run all", Args := ["a b", "c"] }

/-- Witness for C3 at a command and argument containing spaces. -/
theorem direct_mode_argv_verbatim_witness :
    (Execute taskC3 worldOK noFail noFail).argv
      = some ("/opt/my tools/run all", ["a b", "c"]) :=
  direct_mode_argv_verbatim taskC3 worldOK noFail noFail rfl rfl

/-- Claim C5: for every task with `Shell = true` (context not already
expired): with non-empty args the script after `-c` is
`Command ++ " " ++ Join(Args, " ")`; with empty args the command is
whitespace-split and rejoined, a no-op, so the script is the command
itself. -/
theorem shell_mode_script (et : ExecTask) (w : World) (sf ef : Dest → Nat → Bool)
    (hsh : et.Shell = true) (hpre : w.preCtxErr = CtxErr.none) :
    (et.Args ≠ [] →
      (Execute et w sf ef).argv
        = some (shellInterp w, ["-c", et.Command ++ " " ++ strings.Join et.Args ' ']))
    ∧ (et.Args = [] →
      (Execute et w sf ef).argv = some (shellInterp w, ["-c", et.Command])) := by
  constructor <;> intro h <;>
    · unfold Execute
      simp only [hpre, ne_eq, not_true_eq_false, if_false, reduceIte]
      split <;> simp [buildArgv, hsh, h, strings.Join_Split]

def taskC5 : ExecTask :=
  { defaultTask with Command := "echo  one two", Args := [], Shell := true }

/-- Witness for C5 with empty args: the script equals the command verbatim,
extra interior whitespace included. -/
theorem shell_mode_script_witness :
    (Execute taskC5 worldOK noFail noFail).argv
      = some ("sh", ["-c", "echo  one two"]) :=
  (shell_mode_script taskC5 worldOK noFail noFail rfl rfl).2 rfl

/-- Claim C9: the script-execution helper returns a "script not found"
error without invoking the core when the path does not exist; when it
exists, it builds the default task (`Command = "sh"`, `Shell = true`,
`Args = [scriptPath]`), applies the options in order, and delegates to the
core `Execute`, passing its result and error through. -/
theorem executeShellScript_preflight_and_delegate (p : String)
    (opts : List ShellScriptOption) (w : World) (sf ef : Dest → Nat → Bool) :
    ((ExecuteShellScript false p opts w sf ef).error
        = some (ScriptErr.scriptNotFound p)
      ∧ (ExecuteShellScript false p opts w sf ef).coreInvoked = false)
    ∧ ((ExecuteShellScript true p opts w sf ef).coreInvoked = true
      ∧ (ExecuteShellScript true p opts w sf ef).delegatedTask
          = some (opts.foldl (fun et opt => opt et) (defaultScriptTask p))
      ∧ (ExecuteShellScript true p opts w sf ef).result
          = (Execute (opts.foldl (fun et opt => opt et) (defaultScriptTask p)) w sf ef).result
      ∧ (ExecuteShellScript true p opts w sf ef).error
          = ((Execute (opts.foldl (fun et opt => opt et) (defaultScriptTask p)) w sf ef).error).map
              ScriptErr.coreErr) :=
  ⟨⟨rfl, rfl⟩, rfl, rfl, rfl, rfl⟩

/-- Claim C10: `WithShell` with the empty string leaves the task unchanged;
with a non-empty string it sets the command to that string and forces
shell mode, leaving every other field unchanged. -/
theorem withShell_cases (s : String) (et : ExecTask) :
    WithShell s et
      = if s = "" then et else { et with Command := s, Shell := true } := by
  unfold WithShell
  by_cases h : s = "" <;> simp [h]

def taskC2 : ExecTask := { defaultTask with Command := "sleep", Args := ["5"] }

def worldC2 : World := { worldOK with preCtxErr := CtxErr.deadlineExceeded }

/-- Claim C2 is refuted at this input: with the context already expired by
an elapsed deadline before the process is created, `Execute` does return
immediately with `exitCode = -1` and no process created, but the pre-flight
return never sets `Timedout` (the struct literal at part_000 lines 95-99
only assigns `ExitCode` and `Cancelled`), so the flag corresponding to the
cause of expiry is NOT set: `Timedout` is `false`, not `true` as the claim
requires. -/
theorem preflight_deadline_counterexample :
    worldC2.preCtxErr = CtxErr.deadlineExceeded
    ∧ (Execute taskC2 worldC2 noFail noFail).reachedStart = false
    ∧ (Execute taskC2 worldC2 noFail noFail).result.ExitCode = -1
    ∧ (Execute taskC2 worldC2 noFail noFail).result.Timedout = false
    ∧ (Execute taskC2 worldC2 noFail noFail).result.Timedout ≠ true := by
  refine ⟨rfl, rfl, rfl, rfl, by decide⟩

/-- Claim C2 amended: for every `Execute` call whose context is already
expired before the process is created, `Execute` returns immediately with
no process ever created, `exitCode = -1`, and `cancelled = true` exactly
when the context was cancelled; `timedOut` is left `false` even when the
deadline had already expired, and the context's error is returned. -/
theorem preflight_expired_aborts (et : ExecTask) (w : World)
    (sf ef : Dest → Nat → Bool) (h : w.preCtxErr ≠ CtxErr.none) :
    (Execute et w sf ef).reachedStart = false
    ∧ (Execute et w sf ef).result.ExitCode = -1
    ∧ (Execute et w sf ef).result.Cancelled
        = decide (w.preCtxErr = CtxErr.canceled)
    ∧ (Execute et w sf ef).result.Timedout = false
    ∧ (Execute et w sf ef).error = ctxErrOpt w.preCtxErr := by
  unfold Execute
  simp [h]

def worldC2w : World := { worldOK with preCtxErr := CtxErr.canceled }

/-- Witness for the amended C2 at an already-cancelled context. -/
theorem preflight_expired_aborts_witness :
    (Execute taskC2 worldC2w noFail noFail).reachedStart = false
    ∧ (Execute taskC2 worldC2w noFail noFail).result.ExitCode = -1
    ∧ (Execute taskC2 worldC2w noFail noFail).result.Cancelled
        = decide (worldC2w.preCtxErr = CtxErr.canceled)
    ∧ (Execute taskC2 worldC2w noFail noFail).result.Timedout = false
    ∧ (Execute taskC2 worldC2w noFail noFail).error = ctxErrOpt worldC2w.preCtxErr :=
  preflight_expired_aborts taskC2 worldC2w noFail noFail (by decide)

/-- Claim C6: with a positive timeout whose deadline fires while the child
is still running — so the deadline context reports `DeadlineExceeded` and
the forcibly terminated child is classified by the wait call as
signal-killed — the result has `Timedout = true`, `Cancelled = false` and
`ExitCode = -1`. -/
theorem timeout_kill_result (et : ExecTask) (w : World) (sf ef : Dest → Nat → Bool)
    (_htm : 0 < et.Timeout) (hpre : w.preCtxErr = CtxErr.none)
    (hstart : w.startFails = false)
    (hctx : w.finalCtxErr = CtxErr.deadlineExceeded)
    (hkill : w.waitOutcome = WaitOutcome.signalled) :
    (Execute et w sf ef).result.Timedout = true
    ∧ (Execute et w sf ef).result.Cancelled = false
    ∧ (Execute et w sf ef).result.ExitCode = -1 := by
  unfold Execute
  simp [hpre, hstart, hctx, hkill, extractExitCode]

def taskC6 : ExecTask :=
  { defaultTask with Command := "sleep", Args := ["60"], Timeout := 1000 }

def worldC6 : World :=
  { worldOK with finalCtxErr := CtxErr.deadlineExceeded,
                 waitOutcome := WaitOutcome.signalled }

/-- Witness for C6. -/
theorem timeout_kill_result_witness :
    (Execute taskC6 worldC6 noFail noFail).result.Timedout = true
    ∧ (Execute taskC6 worldC6 noFail noFail).result.Cancelled = false
    ∧ (Execute taskC6 worldC6 noFail noFail).result.ExitCode = -1 :=
  timeout_kill_result taskC6 worldC6 noFail noFail (by decide) rfl rfl rfl rfl

/-- Claim C7: for every result `Execute` returns, at most one of
`Timedout` and `Cancelled` is true — both are derived from the single
value of the deadline context's error (and the pre-flight and start-error
returns never set `Timedout`). -/
theorem flags_mutually_exclusive (et : ExecTask) (w : World)
    (sf ef : Dest → Nat → Bool) :
    ¬((Execute et w sf ef).result.Timedout = true
      ∧ (Execute et w sf ef).result.Cancelled = true) := by
  unfold Execute
  rcases hw : w.preCtxErr <;> rcases hf : w.finalCtxErr <;>
    rcases hs : w.startFails <;> simp [zeroResult]

/-- Claim C4: with a non-empty override list the explicit child
environment is the override list followed by exactly the ambient variables
whose key is not an override key, in that order — so every override entry
is present and the inherited part contains no variable with an override
key; with an empty override list no explicit environment is set and the
child inherits the ambient environment. -/
theorem env_override_merge (et : ExecTask) (w : World) (sf ef : Dest → Nat → Bool)
    (hpre : w.preCtxErr = CtxErr.none) :
    (et.Env = [] → (Execute et w sf ef).childEnv = none)
    ∧ (et.Env ≠ [] →
        (Execute et w sf ef).childEnv
          = some (et.Env ++ w.ambientEnv.filter
              (fun a => !((et.Env.map envKey).contains (envKey a))))
        ∧ (∀ e ∈ et.Env,
            e ∈ et.Env ++ w.ambientEnv.filter
              (fun a => !((et.Env.map envKey).contains (envKey a))))
        ∧ (∀ a ∈ w.ambientEnv.filter
              (fun a => !((et.Env.map envKey).contains (envKey a))),
            envKey a ∉ et.Env.map envKey)) := by
  have hce : (Execute et w sf ef).childEnv = buildEnv et w := by
    unfold Execute
    rw [hpre]
    simp only [ne_eq, not_true_eq_false, if_false, reduceIte]
    split <;> rfl
  refine ⟨fun h => ?_, fun h => ⟨?_, fun e he => List.mem_append_left _ he, fun a ha => ?_⟩⟩
  · rw [hce]; simp [buildEnv, h]
  · rw [hce]; simp [buildEnv, h]
  · have hfa := (List.mem_filter.mp ha).2
    simpa using hfa

def taskC4 : ExecTask :=
  { defaultTask with Command := "env", Env := ["HOME=/tmp", "NEW=1"] }

/-- Witness for C4: overrides `HOME=/tmp` and `NEW=1` against the ambient
environment `["PATH=/bin", "HOME=/root"]` give exactly
`["HOME=/tmp", "NEW=1", "PATH=/bin"]` — the ambient `HOME=/root` is gone. -/
theorem env_override_merge_witness :
    (Execute taskC4 worldOK noFail noFail).childEnv
      = some ["HOME=/tmp", "NEW=1", "PATH=/bin"] :=
  ((env_override_merge taskC4 worldOK noFail noFail rfl).2 (by decide)).1

def fileFails : Dest → Nat → Bool := fun d _ => d == Dest.outputFile

def taskC1 : ExecTask :=
  { defaultTask with Command := "cat", Args := ["big.txt"],
                     OutputFile := true, StdOutWriter := true }

def worldC1 : World := { worldOK with stdoutChunks := ["hello\n"] }

/-- Claim C1 is refuted at this input: stdout is fanned out to an output
file and a caller sink, the child writes `"hello\n"`, and the output-file
write fails. `io.MultiWriter` stops a write at the first failing
destination (and the copy loop stops with it), so the sink — an enabled
destination of the same stream — receives nothing, even though the overall
execution still succeeds (error `none`). The claim's requirement that a
write failure on one destination not prevent delivery to the others does
not hold. -/
theorem fanout_failure_counterexample :
    Dest.sink ∈ stdoutDests taskC1
    ∧ worldC1.stdoutChunks = ["hello\n"]
    ∧ (Execute taskC1 worldC1 fileFails noFail).stdoutDelivery.toSink = []
    ∧ (Execute taskC1 worldC1 fileFails noFail).error = none := by
  refine ⟨by decide, rfl, by decide, rfl⟩

/-- Claim C1 amended: destinations of a stream are written sequentially in
a fixed order; when every destination write succeeds, each enabled
destination receives an identical copy of every byte the child writes to
that stream, in order. A write failure on one destination can prevent
delivery of those and later bytes to other destinations of the stream, but
it never changes the returned error, exit code, flags or duration (the
failure is not surfaced through the primary error return and does not fail
the execution). -/
theorem fanout_amended (et : ExecTask) (w : World)
    (sf ef sf2 ef2 : Dest → Nat → Bool)
    (hpre : w.preCtxErr = CtxErr.none) (hstart : w.startFails = false)
    (hnf : ∀ d i, sf d i = false) (hnf2 : ∀ d i, ef d i = false) :
    (∀ d ∈ stdoutDests et,
      (Execute et w sf ef).stdoutDelivery.toDest d = w.stdoutChunks)
    ∧ (∀ d ∈ stderrDests et,
      (Execute et w sf ef).stderrDelivery.toDest d = w.stderrChunks)
    ∧ (Execute et w sf2 ef2).error = (Execute et w sf ef).error
    ∧ (Execute et w sf2 ef2).result.ExitCode
        = (Execute et w sf ef).result.ExitCode
    ∧ (Execute et w sf2 ef2).result.Timedout
        = (Execute et w sf ef).result.Timedout
    ∧ (Execute et w sf2 ef2).result.Cancelled
        = (Execute et w sf ef).result.Cancelled
    ∧ (Execute et w sf2 ef2).result.Duration
        = (Execute et w sf ef).result.Duration := by
  refine ⟨fun d hd => ?_, fun d hd => ?_, ?_, ?_, ?_, ?_, ?_⟩ <;>
    · unfold Execute
      rw [hpre]
      simp only [ne_eq, not_true_eq_false, if_false, reduceIte, hstart,
        Bool.false_eq_true, mkDelivery_toDest]
      try rw [receivedBy_noFail sf _ d hnf hd]
      try rw [receivedBy_noFail ef _ d hnf2 hd]

def worldC1w : World := { worldC1 with stderrChunks := [] }

/-- Witness for the amended C1: with no write failures the sink receives
the full stream; and an output-file write failure leaves the returned
error unchanged. -/
theorem fanout_amended_witness :
    (Execute taskC1 worldC1w noFail noFail).stdoutDelivery.toDest Dest.sink
      = worldC1w.stdoutChunks
    ∧ (Execute taskC1 worldC1w fileFails noFail).error
        = (Execute taskC1 worldC1w noFail noFail).error :=
  ⟨(fanout_amended taskC1 worldC1w noFail noFail fileFails noFail rfl rfl
      (fun _ _ => rfl) (fun _ _ => rfl)).1 Dest.sink (by decide),
   (fanout_amended taskC1 worldC1w noFail noFail fileFails noFail rfl rfl
      (fun _ _ => rfl) (fun _ _ => rfl)).2.2.1⟩

theorem sink_mem_stdoutDests (et : ExecTask) (h : et.StdOutWriter = true) :
    Dest.sink ∈ stdoutDests et := by
  simp [stdoutDests, h]

theorem sink_mem_stderrDests (et : ExecTask) (h : et.StdErrWriter = true) :
    Dest.sink ∈ stderrDests et := by
  simp [stderrDests, h]

theorem buffer_not_mem_stdoutDests (et : ExecTask)
    (h : et.DisableStdioBuffer = true) : Dest.buffer ∉ stdoutDests et := by
  cases hof : et.OutputFile <;> cases hst : et.StreamStdio <;>
    cases hsw : et.StdOutWriter <;> simp [stdoutDests, h, hof, hst, hsw]

theorem buffer_not_mem_stderrDests (et : ExecTask)
    (h : et.DisableStdioBuffer = true) : Dest.buffer ∉ stderrDests et := by
  cases hof : et.ErrorFile <;> cases hst : et.StreamStdio <;>
    cases hsw : et.StdErrWriter <;> simp [stderrDests, h, hof, hst, hsw]

/-- Claim C8: with `DisableStdioBuffer = true` the result's `Stdout` and
`Stderr` are empty regardless of how much the child writes, while supplied
external sinks (whose writes succeed) still receive the full content of
their streams. -/
theorem disable_buffer_empty_capture (et : ExecTask) (w : World)
    (sf ef : Dest → Nat → Bool)
    (hdis : et.DisableStdioBuffer = true)
    (hpre : w.preCtxErr = CtxErr.none) (hstart : w.startFails = false)
    (hout : et.StdOutWriter = true) (herr : et.StdErrWriter = true)
    (hnf : ∀ d i, sf d i = false) (hnf2 : ∀ d i, ef d i = false) :
    (Execute et w sf ef).result.Stdout = ""
    ∧ (Execute et w sf ef).result.Stderr = ""
    ∧ (Execute et w sf ef).stdoutDelivery.toSink = w.stdoutChunks
    ∧ (Execute et w sf ef).stderrDelivery.toSink = w.stderrChunks := by
  refine ⟨?_, ?_, ?_, ?_⟩ <;>
    · unfold Execute
      rw [hpre]
      simp only [ne_eq, not_true_eq_false, if_false, reduceIte, hstart,
        Bool.false_eq_true, mkDelivery]
      try rw [receivedBy_not_mem sf _ _ (buffer_not_mem_stdoutDests et hdis)]
      try rw [receivedBy_not_mem ef _ _ (buffer_not_mem_stderrDests et hdis)]
      try rw [receivedBy_noFail sf _ _ hnf (sink_mem_stdoutDests et hout)]
      try rw [receivedBy_noFail ef _ _ hnf2 (sink_mem_stderrDests et herr)]
      try rfl

def taskC8 : ExecTask :=
  { defaultTask with Command := "cat", DisableStdioBuffer := true,
                     StdOutWriter := true, StdErrWriter := true }

def worldC8 : World :=
  { worldOK with stdoutChunks := ["lots", " of", " output"],
                 stderrChunks := ["warn"] }

/-- Witness for C8. -/
theorem disable_buffer_empty_capture_witness :
    (Execute taskC8 worldC8 noFail noFail).result.Stdout = ""
    ∧ (Execute taskC8 worldC8 noFail noFail).result.Stderr = ""
    ∧ (Execute taskC8 worldC8 noFail noFail).stdoutDelivery.toSink
        = worldC8.stdoutChunks
    ∧ (Execute taskC8 worldC8 noFail noFail).stderrDelivery.toSink
        = worldC8.stderrChunks :=
  disable_buffer_empty_capture taskC8 worldC8 noFail noFail rfl rfl rfl rfl rfl
    (fun _ _ => rfl) (fun _ _ => rfl)
